import Mathlib

/-!
Verification of the database lifecycle and migration orchestration subsystem
of the ConnectifyVPN repository, shallowly embedded from
`src/core/database.py` and `scripts/migrate.py`.

Backend interactions (SQL queries, Redis calls, subprocess spawns) are
modelled as explicit parameters: each fallible backend call is an
`Except ε` value handed to the embedded operation, and the control flow of the operation
 over those outcomes is translated statement by statement from
the Python source.
-/

namespace ConnectifyVPN

/-- `DatabaseConfig` from `src/core/config.py` (the fields read by
`database.py` and `migrate.py`). -/
structure DatabaseConfig where
  host : String
  port : Nat
  name : String
  user : String
  password : String
  pool_size : Nat
  max_overflow : Nat
deriving DecidableEq

/-- `PaymentConfig` from `src/core/config.py` (the fields read by the seed
routine in `migrate.py`). -/
structure PaymentConfig where
  trial_price : Float
  trial_days : Nat
  full_price : Float
  full_days : Nat
  trial_device_limit : Nat
  full_device_limit : Nat

/-- The slice of `Settings` (`src/core/config.py`) consumed by the embedded
operations. -/
structure Settings where
  database : DatabaseConfig
  payment : PaymentConfig

/-- Default values of `DatabaseConfig` (`src/core/config.py`, lines 14-23). -/
def defaultDatabaseConfig : DatabaseConfig :=
  { host := "localhost", port := 5432, name := "connectifyvpn",
    user := "postgres", password := "", pool_size := 20, max_overflow := 30 }

/-- Default values of `PaymentConfig` (`src/core/config.py`, lines 89-97). -/
def defaultPaymentConfig : PaymentConfig :=
  { trial_price := 1.0, trial_days := 3, full_price := 35.0, full_days := 365,
    trial_device_limit := 1, full_device_limit := 5 }

/-- A `Settings` value built from the dataclass defaults. -/
def defaultSettings : Settings :=
  { database := defaultDatabaseConfig, payment := defaultPaymentConfig }

/-- Python-level exceptions raised by the embedded code of `database.py`:
a `NameError` on an unresolved global name, and the generic `Exception`
raised with a formatted message by `backup_database` / `restore_database`
(`database.py`, lines 200 and 234), distinguished here by message shape. -/
inductive PyExc where
  | nameError (n : String)
  | backupFailed (stderr : String)
  | restoreFailed (stderr : String)
deriving DecidableEq

/-- Reachability snapshot returned by `DatabaseManager.health_check`
(`database.py`, lines 92-114): one boolean per backend, keys `postgres`
and `redis` in the source dict. -/
structure HealthStatus where
  postgres : Bool
  redis : Bool
deriving DecidableEq

/-- `true` exactly when a backend probe succeeded. -/
def probeOk {ε α : Type} : Except ε α → Bool
  | .ok _ => true
  | .error _ => false

namespace DatabaseManager

/-- `DatabaseManager.health_check` (`database.py`, lines 92-114).
`pgProbe` is the outcome of `engine.begin()` + `SELECT 1`; `redisProbe`
the outcome of `redis_client.ping()`. Each probe sits in its own
`try`/`except Exception: pass`, so a failure leaves the entry of that backend
`False` and execution continues; the result type `Except ε HealthStatus`
records whether the call itself can raise. -/
def health_check {ε : Type} (pgProbe redisProbe : Except ε Unit) :
    Except ε HealthStatus :=
  let health : HealthStatus := { postgres := false, redis := false }
  let health :=
    match pgProbe with
    | .ok _ => { health with postgres := true }
    | .error _ => health
  let health :=
    match redisProbe with
    | .ok _ => { health with redis := true }
    | .error _ => health
  .ok health

/-- The `redis_client.info()` dict as read by `get_stats` (`database.py`,
lines 138-141): each key may be absent, in which case `.get` supplies the
default written at the call site. -/
structure RedisInfo where
  used_memory_human : Option String
  connected_clients : Option Int
  total_commands_processed : Option Int

/-- The `stats` dict built by `get_stats`: a key that was never assigned is
`none`. -/
structure DbStats where
  postgres_size_bytes : Option Int
  postgres_connections : Option Int
  redis_memory : Option String
  redis_connected_clients : Option Int
  redis_total_commands_processed : Option Int
deriving DecidableEq

/-- `DatabaseManager.get_stats` (`database.py`, lines 116-145).
The two PostgreSQL queries (`pg_database_size`, `pg_stat_activity` count)
run with no surrounding `try`, so their failure propagates out of the
call; the Redis `info()` call sits in `try`/`except Exception: pass`, so
on its failure the three redis keys are simply never assigned. -/
def get_stats {ε : Type} (pgSize pgConn : Except ε Int)
    (redisInfo : Except ε RedisInfo) : Except ε DbStats := do
  let dbSize ← pgSize
  let connectionCount ← pgConn
  let stats : DbStats :=
    { postgres_size_bytes := some dbSize,
      postgres_connections := some connectionCount,
      redis_memory := none, redis_connected_clients := none,
      redis_total_commands_processed := none }
  match redisInfo with
  | .ok info =>
      pure { stats with
        redis_memory := some (info.used_memory_human.getD "N/A"),
        redis_connected_clients := some (info.connected_clients.getD 0),
        redis_total_commands_processed :=
          some (info.total_commands_processed.getD 0) }
  | .error _ => pure stats

/-- Result of one scoped-session acquisition through
`DatabaseManager.get_session` (`database.py`, lines 78-86): the store
state visible after the session ends, whether `session.commit()` ran,
whether `session.rollback()` ran, and the re-raised exception if any. -/
structure SessionRun (σ ε : Type) where
  finalState : σ
  committed : Bool
  rolledBack : Bool
  error : Option ε

/-- `DatabaseManager.get_session` (`database.py`, lines 78-86). The body
runs against a transactional draft: it returns the draft state it built
(its writes so far) together with `some e` if it raised midway. On normal
completion the `try` block commits the draft; on an exception the
`except` block rolls back — the draft is discarded, the visible state
stays at `s` — and the exception is re-raised. -/
def get_session {σ ε : Type} (body : σ → σ × Option ε) (s : σ) :
    SessionRun σ ε :=
  match body s with
  | (draft, none) =>
      { finalState := draft, committed := true, rolledBack := false,
        error := none }
  | (_, some e) =>
      { finalState := s, committed := false, rolledBack := true,
        error := some e }

/-- The three connection attributes of a `DatabaseManager` instance
(`database.py`, lines 23-25), `true` when assigned a live object,
`false` while still `None`. -/
structure MgrState where
  engine : Bool
  session_factory : Bool
  redis_client : Bool
deriving DecidableEq

/-- `DatabaseManager.initialize` (`database.py`, lines 27-66), returning
the attribute state left behind together with the propagated probe error,
if any. `_init_postgres` assigns `self.engine` and `self.session_factory`
before its `SELECT 1` probe; `_init_redis` assigns `self.redis_client`
(`Redis.from_url` constructs the client without connecting) before its
`ping()` probe. Neither helper rolls anything back on probe failure, and
a postgres probe failure prevents `_init_redis` from running at all. -/
def runInit {ε : Type} (pgProbe redisProbe : Except ε Unit) :
    MgrState × Option ε :=
  let s1 : MgrState :=
    { engine := true, session_factory := true, redis_client := false }
  match pgProbe with
  | .error e => (s1, some e)
  | .ok _ =>
      let s2 := { s1 with redis_client := true }
      match redisProbe with
      | .error e => (s2, some e)
      | .ok _ => (s2, none)

end DatabaseManager

/-- Names bound in the module namespace of `src/core/database.py`
(lines 1-13 plus the two classes defined in the module). Neither `Path`
nor `os` is among them: the module imports `asyncio`, typing helpers,
SQLAlchemy and Redis symbols, `asyncpg`, `Settings` and `Base` only. -/
def database_module_globals : List String :=
  ["asyncio", "Optional", "AsyncGenerator", "Any", "Dict", "List",
   "create_async_engine", "AsyncSession", "async_sessionmaker", "NullPool",
   "Redis", "asyncpg", "Settings", "Base",
   "DatabaseManager", "DatabaseUtils"]

/-- Python name resolution for a global lookup inside a method body:
the name must be a local binding, a module global, or a builtin, else the
interpreter raises `NameError`. -/
def resolve_name (locals globals : List String) (n : String) :
    Except PyExc Unit :=
  if n ∈ locals ∨ n ∈ globals then .ok () else .error (.nameError n)

/-- Outcome of an awaited subprocess (`process.communicate()` followed by
`process.returncode`). -/
structure SpawnResult where
  returncode : Int
  stdout : String
  stderr : String
deriving DecidableEq

/-- The `pg_dump` argument vector built by `backup_database`
(`database.py`, lines 175-184). -/
def backup_cmd (db : DatabaseConfig) (filepath : String) : List String :=
  ["pg_dump",
   "-h", db.host,
   "-p", toString db.port,
   "-U", db.user,
   "-d", db.name,
   "-f", filepath,
   "--format=custom",
   "--verbose"]

/-- The `pg_restore` argument vector built by `restore_database`
(`database.py`, lines 209-218); `-c` clears existing data before
loading. -/
def restore_cmd (db : DatabaseConfig) (backup_path : String) : List String :=
  ["pg_restore",
   "-h", db.host,
   "-p", toString db.port,
   "-U", db.user,
   "-d", db.name,
   "-c",
   "--verbose",
   backup_path]

/-- A Python dict assignment `env[k] = v` on an environment mapping; a
later binding of a key shadows an earlier one under lookup. -/
def env_set (env : List (String × String)) (k v : String) :
    List (String × String) :=
  (k, v) :: env

/-- `env = os.environ.copy(); env["PGPASSWORD"] = password` as written in
both `backup_database` (lines 187-188) and `restore_database`
(lines 221-222); `base` is the inherited `os.environ`. -/
def build_pg_env (base : List (String × String)) (db : DatabaseConfig) :
    List (String × String) :=
  env_set base "PGPASSWORD" db.password

namespace DatabaseManager

/-- Local names bound in `backup_database` before the `Path(backup_path)`
expression runs (`database.py`, lines 165-172): the parameters, the two
function-local imports, and the two assigned locals. -/
def backup_locals : List String :=
  ["self", "backup_path", "subprocess", "datetime", "timestamp", "filename"]

/-- `DatabaseManager.backup_database` (`database.py`, lines 165-202),
returning the outcome of the call paired with the number of subprocesses it
spawned. `timestamp` stands for the formatted `datetime.datetime.now()`
value and `osEnviron` for the inherited process environment; `proc` is
the outcome the spawned `pg_dump` would report. Statement order follows
the source: filename formatting, then the `Path(backup_path) / filename`
expression (a global lookup of `Path`), then the argument vector, then
`os.environ.copy()` (a global lookup of `os`), then the spawn and the
exit-code mapping. -/
def backup_database (s : Settings) (backup_path timestamp : String)
    (osEnviron : List (String × String)) (proc : SpawnResult) :
    Except PyExc String × Nat :=
  let filename := "connectifyvpn_backup_" ++ timestamp ++ ".sql"
  match resolve_name backup_locals database_module_globals "Path" with
  | .error e => (.error e, 0)
  | .ok _ =>
      let filepath := backup_path ++ "/" ++ filename
      let cmd := backup_cmd s.database filepath
      match resolve_name (backup_locals ++ ["filepath", "cmd"])
          database_module_globals "os" with
      | .error e => (.error e, 0)
      | .ok _ =>
          let _env := build_pg_env osEnviron s.database
          let _ := cmd
          if proc.returncode ≠ 0 then
            (.error (.backupFailed proc.stderr), 1)
          else
            (.ok filepath, 1)

/-- Local names bound in `restore_database` before the
`os.environ.copy()` expression runs (`database.py`, lines 204-218). -/
def restore_locals : List String :=
  ["self", "backup_path", "subprocess", "cmd"]

/-- `DatabaseManager.restore_database` (`database.py`, lines 204-236),
returning the outcome of the call paired with the number of subprocesses it
spawned. The `pg_restore` argument vector is built first; the next
statement, `os.environ.copy()`, performs a global lookup of `os`; only
then would the subprocess be spawned and its exit code mapped. -/
def restore_database (s : Settings) (backup_path : String)
    (osEnviron : List (String × String)) (proc : SpawnResult) :
    Except PyExc Bool × Nat :=
  let cmd := restore_cmd s.database backup_path
  match resolve_name restore_locals database_module_globals "os" with
  | .error e => (.error e, 0)
  | .ok _ =>
      let _env := build_pg_env osEnviron s.database
      let _ := cmd
      if proc.returncode ≠ 0 then
        (.error (.restoreFailed proc.stderr), 1)
      else
        (.ok true, 1)

end DatabaseManager

/-- User-visible outcome of `MigrationManager.restore` (`migrate.py`,
lines 293-310): the not-found early return, the unconfirmed early
return, the caught-and-printed failure, or success. -/
inductive RestoreOutcome where
  | artifactNotFound
  | cancelled
  | restoreFailed (e : PyExc)
  | completed
deriving DecidableEq

/-- User-visible outcome of `MigrationManager.backup` (`migrate.py`,
lines 278-291): the caught-and-printed failure or the printed created
path. -/
inductive BackupOutcome where
  | backupFailed (e : PyExc)
  | created (path : String)
deriving DecidableEq

namespace MigrationManager

/-- `MigrationManager.restore` (`migrate.py`, lines 293-310), returning
the outcome paired with the number of subprocesses spawned anywhere
below it. `path_exists` is the value of `os.path.exists(backup_path)`
and `confirm` the interactive answer; the existence check is the first
statement, before the confirmation prompt and before
`db.restore_database` is called. -/
def restore (s : Settings) (path_exists : Bool)
    (backup_path confirm : String)
    (osEnviron : List (String × String)) (proc : SpawnResult) :
    RestoreOutcome × Nat :=
  if !path_exists then
    (.artifactNotFound, 0)
  else if !(confirm.toLower == "yes") then
    (.cancelled, 0)
  else
    match DatabaseManager.restore_database s backup_path osEnviron proc with
    | (.error e, n) => (.restoreFailed e, n)
    | (.ok _, n) => (.completed, n)

/-- `MigrationManager.backup` (`migrate.py`, lines 278-291): delegates to
`db.backup_database` inside `try`/`except`, printing either the created
path or the caught failure. -/
def backup (s : Settings) (backup_path timestamp : String)
    (osEnviron : List (String × String)) (proc : SpawnResult) :
    BackupOutcome × Nat :=
  match DatabaseManager.backup_database s backup_path timestamp
      osEnviron proc with
  | (.error e, n) => (.backupFailed e, n)
  | (.ok f, n) => (.created f, n)

end MigrationManager

/-- `PlanType` values used by the seed routine (`core.models`, referenced
from `migrate.py` line 85). -/
inductive PlanType where
  | TRIAL
  | PREMIUM
deriving DecidableEq

/-- `ServerStatus` value used by the seed routine. -/
inductive ServerStatus where
  | ONLINE
deriving DecidableEq

/-- A row of the `plans` table, with the columns the seed routine writes
(`migrate.py`, lines 99-138); `features` holds the `highlights` list of
the `features` dict. -/
structure PlanRow where
  name : String
  description : String
  type : PlanType
  price : Float
  duration_days : Nat
  device_limit : Nat
  features : List String
  is_active : Bool
  is_public : Bool

/-- The per-protocol port block of the `config` dict of a seeded server
(`migrate.py`, lines 165-171). -/
structure ServerPorts where
  vless_tls_port : Nat
  vless_ntls_port : Nat
  vmess_tls_port : Nat
  vmess_ntls_port : Nat
  trojan_port : Nat
deriving DecidableEq

/-- A row of the `servers` table, with the columns the seed routine writes
(`migrate.py`, lines 154-209). -/
structure ServerRow where
  name : String
  hostname : String
  ip_address : String
  location : String
  capacity : Nat
  cpu_cores : Nat
  memory_gb : Nat
  bandwidth_gb : Nat
  status : ServerStatus
  config : ServerPorts
deriving DecidableEq

/-- The relational state the seed routine reads and writes: the `plans`
and `servers` tables as row lists. -/
structure Db where
  plans : List PlanRow
  servers : List ServerRow

/-- What one `seed_database` run reports: rows inserted per group, and
whether the run hit the early `return` that skips everything
(`migrate.py`, lines 94-96). -/
structure SeedReport where
  plansInserted : Nat
  serversInserted : Nat
  skipped : Bool
deriving DecidableEq

/-- `SELECT COUNT(*) FROM plans WHERE is_active = true`
(`migrate.py`, lines 89-92). -/
def countActivePlans (db : Db) : Nat :=
  (db.plans.filter fun p => p.is_active).length

/-- The two default plans built by `seed_database` (`migrate.py`,
lines 99-138). -/
def default_plans (st : Settings) : List PlanRow :=
  [{ name := "Trial",
     description := "3-day trial with limited features",
     type := .TRIAL,
     price := st.payment.trial_price,
     duration_days := st.payment.trial_days,
     device_limit := st.payment.trial_device_limit,
     features := ["3 days access", "1 device", "Basic support",
                  "All protocols"],
     is_active := true,
     is_public := true },
   { name := "Premium",
     description := "Full premium access for 365 days",
     type := .PREMIUM,
     price := st.payment.full_price,
     duration_days := st.payment.full_days,
     device_limit := st.payment.full_device_limit,
     features := ["365 days access",
                  toString st.payment.full_device_limit ++ " devices",
                  "Priority support", "All protocols", "Global servers",
                  "No speed limits"],
     is_active := true,
     is_public := true }]

/-- The shared port block of the three default servers. -/
def default_ports : ServerPorts :=
  { vless_tls_port := 443, vless_ntls_port := 80, vmess_tls_port := 8443,
    vmess_ntls_port := 8080, trojan_port := 8443 }

/-- The three default servers built by `seed_database` (`migrate.py`,
lines 154-209). -/
def default_servers : List ServerRow :=
  [{ name := "SG-01", hostname := "sg01.yourdomain.com",
     ip_address := "1.2.3.4", location := "Singapore", capacity := 20,
     cpu_cores := 4, memory_gb := 8, bandwidth_gb := 1000,
     status := .ONLINE, config := default_ports },
   { name := "SG-02", hostname := "sg02.yourdomain.com",
     ip_address := "2.3.4.5", location := "Singapore", capacity := 20,
     cpu_cores := 4, memory_gb := 8, bandwidth_gb := 1000,
     status := .ONLINE, config := default_ports },
   { name := "US-01", hostname := "us01.yourdomain.com",
     ip_address := "3.4.5.6", location := "United States", capacity := 25,
     cpu_cores := 6, memory_gb := 12, bandwidth_gb := 2000,
     status := .ONLINE, config := default_ports }]

namespace MigrationManager

/-- `MigrationManager.seed_database` (`migrate.py`, lines 81-216).
Inside one scoped session: count active plans; if the count is positive,
print the skip warning and `return` — nothing else in the function runs.
Otherwise add the two default plans and commit, then count all servers;
only if that count is zero add the three default servers and commit. -/
def seed_database (st : Settings) (db : Db) : Db × SeedReport :=
  let plan_count := countActivePlans db
  if plan_count > 0 then
    (db, { plansInserted := 0, serversInserted := 0, skipped := true })
  else
    let db1 : Db := { db with plans := db.plans ++ default_plans st }
    let server_count := db1.servers.length
    if server_count = 0 then
      ({ db1 with servers := db1.servers ++ default_servers },
       { plansInserted := (default_plans st).length,
         serversInserted := default_servers.length, skipped := false })
    else
      (db1,
       { plansInserted := (default_plans st).length,
         serversInserted := 0, skipped := false })

end MigrationManager

/-- A concrete partially-seeded relational state: one active plan row
already present, no server rows. -/
def preseededDb : Db :=
  { plans := [{ name := "Trial",
                description := "3-day trial with limited features",
                type := .TRIAL, price := 1.0, duration_days := 3,
                device_limit := 1, features := [], is_active := true,
                is_public := true }],
    servers := [] }

lemma seed_database_skip_of_active (st : Settings) (db : Db)
    (h : 0 < countActivePlans db) :
    MigrationManager.seed_database st db =
      (db, { plansInserted := 0, serversInserted := 0, skipped := true }) := by
  simp [MigrationManager.seed_database, h]

lemma seed_database_plans_of_inactive (st : Settings) (db : Db)
    (h : ¬ 0 < countActivePlans db) :
    (MigrationManager.seed_database st db).1.plans =
      db.plans ++ default_plans st := by
  by_cases h2 : db.servers.length = 0 <;>
    simp [MigrationManager.seed_database, h, h2]

/-- Claim C1 counterexample: in the concrete state `preseededDb`, which
has one active plan record and no server records, `seed_database` inserts
zero server rows and leaves the `servers` table empty, instead of
inserting the full three-row server batch the claim promises. -/
theorem C1_counterexample :
    0 < countActivePlans preseededDb ∧
    preseededDb.servers.length = 0 ∧
    (MigrationManager.seed_database defaultSettings preseededDb).2.serversInserted
      = 0 ∧
    (MigrationManager.seed_database defaultSettings preseededDb).1.servers.length
      = 0 := by
  refine ⟨by decide, rfl, ?_, ?_⟩ <;> rfl

/-- Claim C1 (amended): the plan-group existence check gates the whole
seed routine. Whenever at least one active plan record exists,
`seed_database` returns at the early `return` and inserts nothing for
either group — in particular, server records absent at that point are
never seeded. -/
theorem C1_plan_check_gates_servers (st : Settings) (db : Db)
    (h : 0 < countActivePlans db) :
    MigrationManager.seed_database st db =
      (db, { plansInserted := 0, serversInserted := 0, skipped := true }) :=
  seed_database_skip_of_active st db h

/-- Witness for the amended claim C1, at the concrete state
`preseededDb`. -/
theorem C1_plan_check_gates_servers_witness :
    MigrationManager.seed_database defaultSettings preseededDb =
      (preseededDb,
       { plansInserted := 0, serversInserted := 0, skipped := true }) :=
  C1_plan_check_gates_servers defaultSettings preseededDb (by decide)

/-- Claim C2 counterexample: `get_stats` is not total over backend
outcomes. When the relational size query fails, the failure propagates
uncaught out of `get_stats`; and when the cache info call fails while the
relational queries succeed, the cache fields of the returned stats are
absent, not populated with neutral placeholder values. -/
theorem C2_counterexample :
    DatabaseManager.get_stats (ε := String)
        (.error "connection refused") (.ok 5) (.ok ⟨none, none, none⟩)
      = .error "connection refused" ∧
    DatabaseManager.get_stats (ε := String)
        (.ok 100) (.ok 5) (.error "redis down")
      = .ok { postgres_size_bytes := some 100,
              postgres_connections := some 5,
              redis_memory := none, redis_connected_clients := none,
              redis_total_commands_processed := none } :=
  ⟨rfl, rfl⟩

/-- Claim C2 (amended): when the cache info call fails, `get_stats` still
returns the relational stats, with the three cache fields left absent
(no placeholder values); a failure of either relational query is not
caught and propagates out of `get_stats`. -/
theorem C2_stats_partial_results (ε : Type) (size conn : Int) (e e2 : ε)
    (pgConn : Except ε Int) (info : Except ε DatabaseManager.RedisInfo) :
    DatabaseManager.get_stats (.ok size) (.ok conn) (.error e)
      = .ok { postgres_size_bytes := some size,
              postgres_connections := some conn,
              redis_memory := none, redis_connected_clients := none,
              redis_total_commands_processed := none } ∧
    DatabaseManager.get_stats (.error e2) pgConn info = .error e2 :=
  ⟨rfl, rfl⟩

/-- Claim C3: `database.py` never imports `Path` or `os`, so
`backup_database` raises `NameError` at the `Path(backup_path)`
expression and `restore_database` raises `NameError` at the
`os.environ.copy()` expression — in both cases before any subprocess is
spawned, for every input and settings value. -/
theorem C3_backup_restore_raise_name_error (s : Settings)
    (bp ts : String) (env : List (String × String)) (proc : SpawnResult) :
    DatabaseManager.backup_database s bp ts env proc
      = (.error (.nameError "Path"), 0) ∧
    DatabaseManager.restore_database s bp env proc
      = (.error (.nameError "os"), 0) :=
  ⟨rfl, rfl⟩

/-- Claim C4: for a path that does not exist
(`os.path.exists(backup_path)` is false), `MigrationManager.restore`
reports the artifact-not-found failure and spawns zero subprocesses,
whatever the confirmation answer or hypothetical subprocess outcome. -/
theorem C4_restore_checks_existence_first (s : Settings)
    (bp confirm : String) (env : List (String × String))
    (proc : SpawnResult) :
    MigrationManager.restore s false bp confirm env proc
      = (.artifactNotFound, 0) :=
  rfl

/-- Claim C5: `health_check` never raises and returns one boolean per
backend, true exactly when that probe succeeded; in particular a
reachable relational store with an unreachable cache yields
postgres true, redis false. -/
theorem C5_health_check_total (ε : Type) (e : ε)
    (pgProbe redisProbe : Except ε Unit) :
    DatabaseManager.health_check pgProbe redisProbe
      = .ok { postgres := probeOk pgProbe, redis := probeOk redisProbe } ∧
    DatabaseManager.health_check (.ok ()) (.error e)
      = .ok { postgres := true, redis := false } := by
  constructor
  · cases pgProbe <;> cases redisProbe <;> rfl
  · rfl

/-- Claim C6: each scoped-session acquisition commits exactly when it
does not roll back; on normal completion it commits the body draft and
re-raises nothing, and on a body exception it rolls back, leaves the
visible state exactly as it was before the session, and re-raises. -/
theorem C6_session_commit_or_rollback (σ ε : Type)
    (body : σ → σ × Option ε) (s : σ) :
    (DatabaseManager.get_session body s).committed
      = !(DatabaseManager.get_session body s).rolledBack ∧
    (((DatabaseManager.get_session body s).committed = true ∧
      (DatabaseManager.get_session body s).error = none ∧
      (DatabaseManager.get_session body s).finalState = (body s).1) ∨
     ((DatabaseManager.get_session body s).rolledBack = true ∧
      (DatabaseManager.get_session body s).finalState = s ∧
      (DatabaseManager.get_session body s).error = (body s).2 ∧
      (DatabaseManager.get_session body s).error.isSome = true)) := by
  rcases hb : body s with ⟨draft, e⟩
  cases e <;> simp [DatabaseManager.get_session, hb]

/-- Claim C7 counterexample: when the relational probe succeeds and the
cache probe fails, the supervisor state left behind has the cache client
attribute assigned (`Redis.from_url` constructs and assigns the client
before `ping()` runs), so the mixed state does not have the cache client
absent as the claim states. -/
theorem C7_counterexample :
    (DatabaseManager.runInit (ε := String)
        (.ok ()) (.error "redis unreachable")).1.redis_client = true ∧
    (DatabaseManager.runInit (ε := String)
        (.ok ()) (.error "redis unreachable")).2
      = some "redis unreachable" :=
  ⟨rfl, rfl⟩

/-- Claim C7 (amended): the initialization probes both backends in order
and propagates the error of the first failing probe; nothing is rolled
back. When the relational probe succeeds but the cache probe fails, the
relational engine, the session factory and the cache client attribute
are all left set (the client is assigned before the failed ping); when
the relational probe fails, the engine and session factory are left set
and the cache client is never created. -/
theorem C7_partial_init_not_rolled_back (ε : Type) (e : ε)
    (redisProbe : Except ε Unit) :
    DatabaseManager.runInit (.ok ()) (.error e)
      = ({ engine := true, session_factory := true, redis_client := true },
         some e) ∧
    DatabaseManager.runInit (.error e) redisProbe
      = ({ engine := true, session_factory := true, redis_client := false },
         some e) ∧
    DatabaseManager.runInit (ε := ε) (.ok ()) (.ok ())
      = ({ engine := true, session_factory := true, redis_client := true },
         none) :=
  ⟨rfl, rfl, rfl⟩

/-- Claim C8: seeding is idempotent. For every settings value and every
database state, running `seed_database` a second time on the state the
first run produced leaves that state unchanged and reports zero inserted
rows for both groups. -/
theorem C8_seed_idempotent (st : Settings) (db : Db) :
    MigrationManager.seed_database st (MigrationManager.seed_database st db).1
      = ((MigrationManager.seed_database st db).1,
         { plansInserted := 0, serversInserted := 0, skipped := true }) := by
  by_cases h : 0 < countActivePlans db
  · rw [seed_database_skip_of_active st db h]
    exact seed_database_skip_of_active st db h
  · apply seed_database_skip_of_active
    have hp := seed_database_plans_of_inactive st db h
    unfold countActivePlans
    rw [hp]
    simp [default_plans, List.filter_append]

/-- Claim C9: the exit-code mapping of `backup_database` is unreachable.
Even with a subprocess outcome that exits with code zero, the call
raises `NameError` on the unimported `Path` and spawns nothing, so a
zero exit can never produce the artifact path the claim (and the spec)
promise. -/
theorem C9_backup_mapping_unreachable :
    DatabaseManager.backup_database defaultSettings "/tmp" "20260101_000000"
        [] { returncode := 0, stdout := "", stderr := "" }
      = (.error (.nameError "Path"), 0) :=
  rfl

/-- Claim C10: the credential flows to the dump/restore processes only
through the environment. The `pg_dump` and `pg_restore` argument vectors
do not depend on the configured password at all, and the constructed
process environment binds `PGPASSWORD` to exactly that password. -/
theorem C10_password_only_in_env (c : DatabaseConfig)
    (p1 p2 fp bp : String) (base : List (String × String)) :
    backup_cmd { c with password := p1 } fp
      = backup_cmd { c with password := p2 } fp ∧
    restore_cmd { c with password := p1 } bp
      = restore_cmd { c with password := p2 } bp ∧
    (build_pg_env base c).lookup "PGPASSWORD" = some c.password := by
  refine ⟨rfl, rfl, ?_⟩
  simp [build_pg_env, env_set, List.lookup]

end ConnectifyVPN
